import Mathlib

/-!
Verification of the Blockly ComputerCraft block superclass
(apps/code/block.js of the blockly-lua repository).

The JavaScript source is shallowly embedded below:
pure string transformations become Lean functions on String/List Char,
the mutable host block object becomes an explicit record threaded through
the initialization steps, and failing assertions (goog.asserts) become
Except values carrying the assertion message.
-/

set_option autoImplicit false

/-- Embeds Blockly.ComputerCraft.convertFromCamelCase, step 1: the regex
replacement of /([a-z])(?=[A-Z])/g by the matched letter followed by an
underscore.  An underscore is inserted after every lower-case letter that
is immediately followed by an upper-case letter. -/
def insertUnderscores : List Char → List Char
  | [] => []
  | c :: rest =>
    match rest with
    | [] => [c]
    | d :: _ =>
      if c.isLower && d.isUpper
      then c :: '_' :: insertUnderscores rest
      else c :: insertUnderscores rest

/-- Embeds Blockly.ComputerCraft.convertFromCamelCase: regex replacement,
then String.prototype.toLowerCase (ASCII on the contracted inputs). -/
def convertFromCamelCase (s : String) : String :=
  String.mk ((insertUnderscores s.data).map Char.toLower)

/-- Modelled from the words of the spec for convertFromMixedCase: walk the
string remembering the previous character; put a single underscore
immediately before an upper-case letter whose predecessor is lower-case
(hence one underscore per run of upper-case letters), lower-casing every
letter on the way. -/
def specGo (prev : Char) : List Char → List Char
  | [] => []
  | c :: rest =>
    if c.isUpper && prev.isLower
    then '_' :: c.toLower :: specGo c rest
    else c.toLower :: specGo c rest

/-- Modelled from the words of the spec: the underscore-insertion rule of
convertFromMixedCase, stated independently of the regex mechanics. -/
def specConvertFromMixedCase (s : String) : String :=
  match s.data with
  | [] => ""
  | c :: rest => String.mk (c.toLower :: specGo c rest)

/-- The contract of convertFromCamelCase: the input consists of ASCII
letters only. -/
def onlyAsciiLetters (s : String) : Bool :=
  s.data.all (fun c => c.isLower || c.isUpper)

/-- JavaScript truthiness of an optional string: undefined and the empty
string are falsy. -/
def strTruthy : Option String → Bool
  | none => false
  | some s => s != ""

/-- JavaScript string coercion of a possibly-undefined string value. -/
def jsToString : Option String → String
  | none => "undefined"
  | some s => s

/-- Blockly.ComputerCraft.StmtConns.NONE -/
def StmtConns.NONE : Nat := 0

/-- Blockly.ComputerCraft.StmtConns.PREVIOUS -/
def StmtConns.PREVIOUS : Nat := 1

/-- Blockly.ComputerCraft.StmtConns.NEXT -/
def StmtConns.NEXT : Nat := 2

/-- Blockly.ComputerCraft.StmtConns.BOTH -/
def StmtConns.BOTH : Nat := 3

/-- Blockly.ComputerCraft.HelpUrlType.PREFIX_NAME -/
def HelpUrlType.PREFIX_NAME : Nat := 1

/-- Blockly.ComputerCraft.HelpUrlType.PREFIX_DD -/
def HelpUrlType.PREFIX_DD : Nat := 2

/-- Blockly.ComputerCraft.BASE_HELP_URL -/
def BASE_HELP_URL : String := "http://computercraft.info/wiki/"

/-- The info.output field: absent (undefined), null, a type name, or an
array of type names. -/
inductive OutputSpec
  | undef
  | nullv
  | str (s : String)
  | arr (l : List String)
  deriving DecidableEq

/-- The info.tooltip field: absent, a string, or a function. -/
inductive TooltipSpec
  | undef
  | str (s : String)
  | fn
  deriving DecidableEq

/-- The info record passed to the Blockly.ComputerCraft.Block constructor;
optional fields are modelled as Option with none for undefined. -/
structure BlockInfo where
  blockName : Option String := none
  funcName : Option String := none
  output : OutputSpec := OutputSpec.undef
  stmtConns : Option Nat := none
  multipleOutputs : Option Nat := none
  tooltip : TooltipSpec := TooltipSpec.undef
  helpUrl : Option String := none
  helpUrlType : Option Nat := none
  deriving DecidableEq

/-- Embeds Blockly.ComputerCraft.getBlockName_: the blockName is used when
truthy; otherwise funcName must be truthy (goog.asserts.assert) and is run
through convertFromCamelCase; the result is prefixed and joined with an
underscore. -/
def getBlockName (p : String) (info : BlockInfo) : Except String String :=
  let name := info.blockName
  if strTruthy name = false
  then
    if strTruthy info.funcName = true
    then Except.ok (p ++ "_" ++ convertFromCamelCase (jsToString info.funcName))
    else Except.error "info.funcName not defined"
  else Except.ok (p ++ "_" ++ jsToString name)

theorem toLower_underscore : Char.toLower '_' = '_' := by decide

instance {ε α : Type} [DecidableEq ε] [DecidableEq α] :
    DecidableEq (Except ε α) := fun a b =>
  match a, b with
  | Except.ok x, Except.ok y =>
    if h : x = y then Decidable.isTrue (by rw [h])
    else Decidable.isFalse (by intro hc; cases hc; exact h rfl)
  | Except.error x, Except.error y =>
    if h : x = y then Decidable.isTrue (by rw [h])
    else Decidable.isFalse (by intro hc; cases hc; exact h rfl)
  | Except.ok _, Except.error _ => Decidable.isFalse (by intro hc; cases hc)
  | Except.error _, Except.ok _ => Decidable.isFalse (by intro hc; cases hc)

theorem map_toLower_insertUnderscores (c : Char) (l : List Char) :
    (insertUnderscores (c :: l)).map Char.toLower = c.toLower :: specGo c l := by
  induction l generalizing c with
  | nil => rfl
  | cons d rest ih =>
    have hins : insertUnderscores (c :: d :: rest)
        = if c.isLower && d.isUpper
          then c :: '_' :: insertUnderscores (d :: rest)
          else c :: insertUnderscores (d :: rest) := rfl
    have hspec : specGo c (d :: rest)
        = if d.isUpper && c.isLower
          then '_' :: d.toLower :: specGo d rest
          else d.toLower :: specGo d rest := rfl
    rw [hins, hspec]
    cases hc : c.isLower with
    | false => simp [hc, ih d]
    | true =>
      cases hd : d.isUpper with
      | false => simp [hc, hd, ih d]
      | true => simp [hc, hd, ih d, toLower_underscore]

/-- C2: on strings of ASCII letters, convertFromCamelCase realizes the
specified rule: a single underscore immediately before each run of
upper-case letters preceded by a lower-case letter, everything
lower-cased; and the four documented examples hold. -/
theorem c2_convertFromMixedCase :
    (∀ s : String, onlyAsciiLetters s = true →
      convertFromCamelCase s = specConvertFromMixedCase s)
    ∧ convertFromCamelCase "turn" = "turn"
    ∧ convertFromCamelCase "isPresent" = "is_present"
    ∧ convertFromCamelCase "getID" = "get_id"
    ∧ convertFromCamelCase "lightGray" = "light_gray" := by
  refine ⟨?_, by decide, by decide, by decide, by decide⟩
  intro s _
  obtain ⟨l⟩ := s
  cases l with
  | nil => rfl
  | cons c rest =>
    simp [convertFromCamelCase, specConvertFromMixedCase,
      map_toLower_insertUnderscores]

theorem c2_convertFromMixedCase_witness :
    onlyAsciiLetters "getID" = true
    ∧ convertFromCamelCase "getID" = specConvertFromMixedCase "getID" :=
  ⟨by decide, c2_convertFromMixedCase.1 "getID" (by decide)⟩

/-- C1: getBlockName_ returns prefix + underscore + suffix, where the
suffix is blockName when supplied non-empty, else the case-converted
funcName; it fails with the funcName assertion when neither is available;
and the two documented examples hold. -/
theorem c1_getBlockName :
    (∀ (p s : String) (info : BlockInfo), info.blockName = some s → s ≠ "" →
      getBlockName p info = Except.ok (p ++ "_" ++ s))
    ∧ (∀ (p fn : String) (info : BlockInfo), strTruthy info.blockName = false →
        info.funcName = some fn → fn ≠ "" →
        getBlockName p info = Except.ok (p ++ "_" ++ convertFromCamelCase fn))
    ∧ (∀ (p : String) (info : BlockInfo), strTruthy info.blockName = false →
        strTruthy info.funcName = false →
        getBlockName p info = Except.error "info.funcName not defined")
    ∧ getBlockName "turtle" { funcName := some "turnLeft" }
        = Except.ok "turtle_turn_left"
    ∧ getBlockName "os" { blockName := some "custom" }
        = Except.ok "os_custom" := by
  refine ⟨?_, ?_, ?_, by decide, by decide⟩
  · intro p s info hb hs
    simp [getBlockName, strTruthy, jsToString, hb, hs]
  · intro p fn info hb hf hfne
    have h1 : strTruthy (some fn) = true := by
      simp [strTruthy, hfne]
    simp [getBlockName, hb, hf, h1, jsToString]
  · intro p info hb hf
    simp [getBlockName, hb, hf]

theorem c1_getBlockName_witness :
    (({ blockName := some "custom" } : BlockInfo).blockName = some "custom")
    ∧ getBlockName "os" { blockName := some "custom" }
        = Except.ok ("os" ++ "_" ++ "custom") :=
  ⟨rfl, c1_getBlockName.1 "os" "custom" { blockName := some "custom" } rfl
    (by decide)⟩

/-- C10: a blockName explicitly supplied as the empty string is falsy, so
getBlockName_ behaves exactly as when blockName is absent: it falls back
to funcName, and fails with the funcName assertion when funcName is also
missing or empty. -/
theorem c10_emptyBlockName (p : String) (info : BlockInfo)
    (h : info.blockName = some "") :
    getBlockName p info = getBlockName p { info with blockName := none }
    ∧ (strTruthy info.funcName = false →
        getBlockName p info = Except.error "info.funcName not defined") := by
  have hbn : strTruthy (some "") = false := by decide
  have hn : strTruthy (none : Option String) = false := rfl
  constructor
  · simp [getBlockName, h, hbn, hn]
  · intro hf
    simp [getBlockName, h, hbn, hf]

def infoC10 : BlockInfo := { blockName := some "", funcName := some "turnLeft" }

theorem c10_emptyBlockName_witness :
    infoC10.blockName = some ""
    ∧ getBlockName "turtle" infoC10
        = getBlockName "turtle" { infoC10 with blockName := none }
    ∧ getBlockName "turtle" infoC10 = Except.ok "turtle_turn_left" :=
  ⟨rfl, (c10_emptyBlockName "turtle" infoC10 rfl).1, by decide⟩

/-- The tooltip state of the host block after setTooltip calls. -/
inductive TooltipSetting
  | unset
  | str (s : String)
  | dynamic
  deriving DecidableEq

/-- The block descriptor together with the mutable host block state that
Blockly.ComputerCraft.Block.prototype.init updates: colour, inline
inputs, help URL, tooltip, previous and next statement connectors, the
output connector and the multipleOutputs field stored on the block. -/
structure Block where
  pfx : String
  colour : Nat
  info : BlockInfo
  blockName : String
  colourSet : Option Nat := none
  inputsInline : Bool := false
  helpUrl : Option String := none
  tooltipSet : TooltipSetting := TooltipSetting.unset
  prevStmt : Bool := false
  nextStmt : Bool := false
  outputEnabled : Bool := false
  outputCheck : OutputSpec := OutputSpec.undef
  multipleOutputs : Option Nat := none

/-- Embeds the Blockly.ComputerCraft.Block constructor: it stores the
arguments and derives the Blockly block name with getBlockName_, which
can fail on its assertion. -/
def mkBlock (p : String) (colour : Nat) (info : BlockInfo) :
    Except String Block :=
  match getBlockName p info with
  | Except.error e => Except.error e
  | Except.ok n =>
    Except.ok { pfx := p, colour := colour, info := info, blockName := n }

/-- JavaScript truthiness of an optional number: undefined and 0 are
falsy. -/
def natTruthy : Option Nat → Bool
  | none => false
  | some k => k != 0

/-- JavaScript truthiness of the info.output value: undefined, null and
the empty string are falsy; an array is always truthy. -/
def outputTruthy : OutputSpec → Bool
  | OutputSpec.undef => false
  | OutputSpec.nullv => false
  | OutputSpec.str s => s != ""
  | OutputSpec.arr _ => true

/-- JavaScript truthiness of the info.tooltip value. -/
def tooltipTruthy : TooltipSpec → Bool
  | TooltipSpec.undef => false
  | TooltipSpec.str s => s != ""
  | TooltipSpec.fn => true

/-- Embeds this.prefix.charAt(0).toUpperCase() + this.prefix.slice(1). -/
def capitalizeFirst (s : String) : String :=
  match s.data with
  | [] => ""
  | c :: rest => String.mk (c.toUpper :: rest)

/-- init, first statements: setColour(this.colour) and
setInputsInline(true). -/
def initStart (b : Block) : Block :=
  { b with colourSet := some b.colour, inputsInline := true }

/-- init, help URL step: when this.info.helpUrlType == PREFIX_NAME the
block help URL is set to BASE_HELP_URL concatenated with the capitalized
API name, a dot and this.info.funcName. -/
def initHelpUrl (b : Block) : Block :=
  if b.info.helpUrlType = some HelpUrlType.PREFIX_NAME
  then
    { b with
      helpUrl := some (BASE_HELP_URL ++ capitalizeFirst b.pfx ++ "." ++
        jsToString b.info.funcName) }
  else b

/-- init, tooltip step: a truthy tooltip is installed, a function as a
dynamic tooltip closure and a string directly. -/
def initTooltip (b : Block) : Block :=
  if tooltipTruthy b.info.tooltip
  then
    match b.info.tooltip with
    | TooltipSpec.fn => { b with tooltipSet := TooltipSetting.dynamic }
    | TooltipSpec.str s => { b with tooltipSet := TooltipSetting.str s }
    | TooltipSpec.undef => b
  else b

/-- The guard of the connector-defaulting assignment in init:
!this.info.multipleOutputs, typeof this.info.output == undefined and
this.info.stmtConns != StmtConns.NONE. -/
def stmtDefaultApplies (info : BlockInfo) : Prop :=
  natTruthy info.multipleOutputs = false
  ∧ info.output = OutputSpec.undef
  ∧ info.stmtConns ≠ some StmtConns.NONE

instance (info : BlockInfo) : Decidable (stmtDefaultApplies info) := by
  unfold stmtDefaultApplies; infer_instance

/-- init, connector defaulting: under the guard, this.info.stmtConns is
assigned StmtConns.BOTH.  Note that this writes into the info record. -/
def initStmtDefault (b : Block) : Block :=
  if stmtDefaultApplies b.info
  then { b with info := { b.info with stmtConns := some StmtConns.BOTH } }
  else b

/-- init, statement connector step: when this.info.stmtConns is truthy,
setPreviousStatement and setNextStatement receive the PREVIOUS and NEXT
bit tests. -/
def initStmtConns (b : Block) : Block :=
  match b.info.stmtConns with
  | some k =>
    if k != 0
    then { b with
      prevStmt := ((k &&& StmtConns.PREVIOUS) != 0),
      nextStmt := ((k &&& StmtConns.NEXT) != 0) }
    else b
  | none => b

/-- init, output step: when typeof this.info.output != undefined,
setOutput(true, this.info.output). -/
def initOutput (b : Block) : Block :=
  if b.info.output ≠ OutputSpec.undef
  then { b with outputEnabled := true, outputCheck := b.info.output }
  else b

/-- init, multipleOutputs step: a truthy count is stored on the block and,
when this.info.output is falsy, setOutput(true) is called with an
undefined check. -/
def initMultipleOutputs (b : Block) : Block :=
  if natTruthy b.info.multipleOutputs
  then
    let b1 := { b with multipleOutputs := b.info.multipleOutputs }
    if outputTruthy b1.info.output = false
    then { b1 with outputEnabled := true, outputCheck := OutputSpec.undef }
    else b1
  else b

/-- Embeds Blockly.ComputerCraft.Block.prototype.init as the composition
of its statements in source order. -/
def Block.init (b : Block) : Block :=
  initMultipleOutputs (initOutput (initStmtConns (initStmtDefault
    (initTooltip (initHelpUrl (initStart b))))))

theorem initStart_info (b : Block) : (initStart b).info = b.info := rfl

theorem initHelpUrl_info (b : Block) : (initHelpUrl b).info = b.info := by
  unfold initHelpUrl; split <;> rfl

theorem initTooltip_info (b : Block) : (initTooltip b).info = b.info := by
  unfold initTooltip
  split
  · split <;> rfl
  · rfl

theorem initStmtConns_info (b : Block) :
    (initStmtConns b).info = b.info := by
  unfold initStmtConns
  cases b.info.stmtConns with
  | none => rfl
  | some k => dsimp only; split <;> rfl

theorem initOutput_info (b : Block) : (initOutput b).info = b.info := by
  unfold initOutput; split <;> rfl

theorem initMultipleOutputs_info (b : Block) :
    (initMultipleOutputs b).info = b.info := by
  unfold initMultipleOutputs
  split
  · dsimp only; split <;> rfl
  · rfl

theorem initStmtDefault_info (b : Block) :
    (initStmtDefault b).info =
      if stmtDefaultApplies b.info
      then { b.info with stmtConns := some StmtConns.BOTH }
      else b.info := by
  unfold initStmtDefault; split <;> simp_all

theorem initStart_prev (b : Block) : (initStart b).prevStmt = b.prevStmt := rfl

theorem initStart_next (b : Block) : (initStart b).nextStmt = b.nextStmt := rfl

theorem initHelpUrl_prev (b : Block) :
    (initHelpUrl b).prevStmt = b.prevStmt := by
  unfold initHelpUrl; split <;> rfl

theorem initHelpUrl_next (b : Block) :
    (initHelpUrl b).nextStmt = b.nextStmt := by
  unfold initHelpUrl; split <;> rfl

theorem initTooltip_prev (b : Block) :
    (initTooltip b).prevStmt = b.prevStmt := by
  unfold initTooltip
  split
  · split <;> rfl
  · rfl

theorem initTooltip_next (b : Block) :
    (initTooltip b).nextStmt = b.nextStmt := by
  unfold initTooltip
  split
  · split <;> rfl
  · rfl

theorem initStmtDefault_prev (b : Block) :
    (initStmtDefault b).prevStmt = b.prevStmt := by
  unfold initStmtDefault; split <;> rfl

theorem initStmtDefault_next (b : Block) :
    (initStmtDefault b).nextStmt = b.nextStmt := by
  unfold initStmtDefault; split <;> rfl

theorem initOutput_prev (b : Block) :
    (initOutput b).prevStmt = b.prevStmt := by
  unfold initOutput; split <;> rfl

theorem initOutput_next (b : Block) :
    (initOutput b).nextStmt = b.nextStmt := by
  unfold initOutput; split <;> rfl

theorem initMultipleOutputs_prev (b : Block) :
    (initMultipleOutputs b).prevStmt = b.prevStmt := by
  unfold initMultipleOutputs
  split
  · dsimp only; split <;> rfl
  · rfl

theorem initMultipleOutputs_next (b : Block) :
    (initMultipleOutputs b).nextStmt = b.nextStmt := by
  unfold initMultipleOutputs
  split
  · dsimp only; split <;> rfl
  · rfl

theorem initStmtConns_prev (b : Block) :
    (initStmtConns b).prevStmt =
      match b.info.stmtConns with
      | some k =>
        if k != 0 then ((k &&& StmtConns.PREVIOUS) != 0) else b.prevStmt
      | none => b.prevStmt := by
  unfold initStmtConns
  cases b.info.stmtConns with
  | none => rfl
  | some k => dsimp only; split <;> rfl

theorem initStmtConns_next (b : Block) :
    (initStmtConns b).nextStmt =
      match b.info.stmtConns with
      | some k =>
        if k != 0 then ((k &&& StmtConns.NEXT) != 0) else b.nextStmt
      | none => b.nextStmt := by
  unfold initStmtConns
  cases b.info.stmtConns with
  | none => rfl
  | some k => dsimp only; split <;> rfl

/-- The info record after the whole of init: only stmtConns can change,
and it does exactly under the connector-defaulting guard. -/
theorem init_info (b : Block) :
    (Block.init b).info =
      if stmtDefaultApplies b.info
      then { b.info with stmtConns := some StmtConns.BOTH }
      else b.info := by
  unfold Block.init
  rw [initMultipleOutputs_info, initOutput_info, initStmtConns_info,
    initStmtDefault_info, initTooltip_info, initHelpUrl_info, initStart_info]

/-- C3: with multipleOutputs unset and output undefined, init enables both
statement connectors whenever stmtConns differs from NONE (including the
unset case), and enables neither on a fresh host block when stmtConns is
explicitly NONE. -/
theorem c3_connectorDefaulting (b : Block)
    (hm : b.info.multipleOutputs = none)
    (ho : b.info.output = OutputSpec.undef) :
    (b.info.stmtConns ≠ some StmtConns.NONE →
      (Block.init b).prevStmt = true ∧ (Block.init b).nextStmt = true)
    ∧ (b.info.stmtConns = some StmtConns.NONE → b.prevStmt = false →
        b.nextStmt = false →
        (Block.init b).prevStmt = false ∧ (Block.init b).nextStmt = false) := by
  have hyinfo : (initStmtDefault (initTooltip (initHelpUrl (initStart b)))).info
      = if stmtDefaultApplies b.info
        then { b.info with stmtConns := some StmtConns.BOTH }
        else b.info := by
    rw [initStmtDefault_info, initTooltip_info, initHelpUrl_info,
      initStart_info]
  have hyprev :
      (initStmtDefault (initTooltip (initHelpUrl (initStart b)))).prevStmt
        = b.prevStmt := by
    rw [initStmtDefault_prev, initTooltip_prev, initHelpUrl_prev,
      initStart_prev]
  have hynext :
      (initStmtDefault (initTooltip (initHelpUrl (initStart b)))).nextStmt
        = b.nextStmt := by
    rw [initStmtDefault_next, initTooltip_next, initHelpUrl_next,
      initStart_next]
  have hprevE : (Block.init b).prevStmt
      = (initStmtConns (initStmtDefault (initTooltip (initHelpUrl
          (initStart b))))).prevStmt := by
    unfold Block.init
    rw [initMultipleOutputs_prev, initOutput_prev]
  have hnextE : (Block.init b).nextStmt
      = (initStmtConns (initStmtDefault (initTooltip (initHelpUrl
          (initStart b))))).nextStmt := by
    unfold Block.init
    rw [initMultipleOutputs_next, initOutput_next]
  constructor
  · intro hs
    have happ : stmtDefaultApplies b.info := by
      refine ⟨?_, ho, hs⟩
      rw [hm]; rfl
    have hsc : (initStmtDefault (initTooltip (initHelpUrl
        (initStart b)))).info.stmtConns = some StmtConns.BOTH := by
      rw [hyinfo, if_pos happ]
    constructor
    · rw [hprevE, initStmtConns_prev, hsc]
      simp [StmtConns.BOTH, StmtConns.PREVIOUS]
    · rw [hnextE, initStmtConns_next, hsc]
      simp [StmtConns.BOTH, StmtConns.NEXT]
  · intro hs0 hp hn
    have hnapp : ¬ stmtDefaultApplies b.info := by
      intro hc
      exact hc.2.2 hs0
    have hsc : (initStmtDefault (initTooltip (initHelpUrl
        (initStart b)))).info.stmtConns = some StmtConns.NONE := by
      rw [hyinfo, if_neg hnapp, hs0]
    constructor
    · rw [hprevE, initStmtConns_prev, hsc]
      simpa [StmtConns.NONE, hyprev] using hp
    · rw [hnextE, initStmtConns_next, hsc]
      simpa [StmtConns.NONE, hynext] using hn

def blkC3 : Block :=
  { pfx := "turtle", colour := 120, info := {}, blockName := "turtle_x" }

theorem c3_connectorDefaulting_witness :
    blkC3.info.multipleOutputs = none
    ∧ blkC3.info.stmtConns ≠ some StmtConns.NONE
    ∧ ((Block.init blkC3).prevStmt = true
        ∧ (Block.init blkC3).nextStmt = true) :=
  ⟨rfl, by decide, (c3_connectorDefaulting blkC3 rfl rfl).1 (by decide)⟩

def blkC7 : Block :=
  { pfx := "turtle", colour := 120, info := {}, blockName := "turtle_y" }

/-- C7 as stated is false: when connector defaulting applies, init writes
StmtConns.BOTH into the stmtConns field of the metadata record it was
constructed with. -/
theorem c7_metadataMutated_cex :
    (Block.init blkC7).info ≠ blkC7.info := by decide

/-- C7 amended: init leaves every metadata field except stmtConns
unchanged; stmtConns is rewritten to BOTH exactly when the
connector-defaulting guard holds, and the whole metadata record is
unchanged otherwise. -/
theorem c7_metadataFrame (b : Block) :
    ((Block.init b).info.blockName = b.info.blockName
      ∧ (Block.init b).info.funcName = b.info.funcName
      ∧ (Block.init b).info.output = b.info.output
      ∧ (Block.init b).info.multipleOutputs = b.info.multipleOutputs
      ∧ (Block.init b).info.tooltip = b.info.tooltip
      ∧ (Block.init b).info.helpUrl = b.info.helpUrl
      ∧ (Block.init b).info.helpUrlType = b.info.helpUrlType)
    ∧ (stmtDefaultApplies b.info →
        (Block.init b).info.stmtConns = some StmtConns.BOTH)
    ∧ (¬ stmtDefaultApplies b.info → (Block.init b).info = b.info) := by
  rw [init_info]
  by_cases h : stmtDefaultApplies b.info
  · rw [if_pos h]
    exact ⟨⟨rfl, rfl, rfl, rfl, rfl, rfl, rfl⟩, fun _ => rfl,
      fun hc => absurd h hc⟩
  · rw [if_neg h]
    exact ⟨⟨rfl, rfl, rfl, rfl, rfl, rfl, rfl⟩, fun hc => absurd hc h,
      fun _ => rfl⟩

def blkC7w : Block :=
  { pfx := "os", colour := 100, info := {}, blockName := "os_y" }

theorem c7_metadataFrame_witness :
    stmtDefaultApplies blkC7w.info
    ∧ (Block.init blkC7w).info.stmtConns = some StmtConns.BOTH :=
  ⟨by decide, (c7_metadataFrame blkC7w).2.1 (by decide)⟩

def blkC6 : Block :=
  { pfx := "os", colour := 20,
    info := { funcName := some "time",
              helpUrl := some "http://example.com/custom",
              helpUrlType := some HelpUrlType.PREFIX_NAME },
    blockName := "os_time",
    helpUrl := some "http://example.com/custom" }

/-- C6 is contradicted by the code: even though info.helpUrl is explicitly
supplied (and was copied onto the block), init overwrites the block help
URL with the URL derived from helpUrlType == PREFIX_NAME; the derived URL
follows the documented BASE_HELP_URL formula. -/
theorem c6_helpUrlOverwritten :
    blkC6.info.helpUrl = some "http://example.com/custom"
    ∧ blkC6.helpUrl = some "http://example.com/custom"
    ∧ (Block.init blkC6).helpUrl
        = some "http://computercraft.info/wiki/Os.time"
    ∧ (Block.init blkC6).helpUrl ≠ blkC6.info.helpUrl := by
  refine ⟨rfl, rfl, by decide, by decide⟩

/-- Blockly input types as looked up by getInput; INPUT_VALUE is the only
one accepted by generateLuaInner_. -/
inductive InputType
  | value
  | statement
  | dummy
  deriving DecidableEq

/-- Kinds of title fields as looked up by getTitle_; only FieldDropdown
titles are accepted by generateLuaInner_. -/
inductive TitleKind
  | dropdown
  | other
  deriving DecidableEq

/-- The precedence tokens of the host Lua generator consumed by this
file: Blockly.Lua.ORDER_NONE and Blockly.Lua.ORDER_HIGH. -/
inductive LuaOrder
  | ORDER_NONE
  | ORDER_HIGH
  deriving DecidableEq

/-- The collaborators generateLuaInner_ consults on the host block and
the subclass: the ordered parameter names, the named inputs and title
fields of the block, the recursive Blockly.Lua.valueToCode generator, the
overridden generateDropdownCode hook and getFuncName. -/
structure GenEnv where
  orderedParameterNames : List String
  inputs : List (String × InputType)
  titles : List (String × TitleKind)
  valueToCode : String → LuaOrder → String
  dropdownCode : String → String
  funcName : String

/-- Host block getInput: the input registered under the name, if any. -/
def GenEnv.getInput (env : GenEnv) (name : String) : Option InputType :=
  (env.inputs.find? (fun q => q.1 == name)).map (fun q => q.2)

/-- Host block getTitle_: the title field registered under the name. -/
def GenEnv.getTitle (env : GenEnv) (name : String) : Option TitleKind :=
  (env.titles.find? (fun q => q.1 == name)).map (fun q => q.2)

/-- The body of the forEach loop of generateLuaInner_: one parameter name
yields a code fragment, none when a falsy dropdown result is skipped, or
fails on one of the goog.asserts assertions. -/
def genParamCode (env : GenEnv) (name : String) :
    Except String (Option String) :=
  match env.getInput name with
  | some t =>
    if t = InputType.value
    then Except.ok (some (env.valueToCode name LuaOrder.ORDER_NONE))
    else Except.error "Assertion failed"
  | none =>
    match env.getTitle name with
    | none => Except.error ("Unable to find input or title named " ++ name)
    | some k =>
      if k = TitleKind.dropdown
      then
        let result := env.dropdownCode name
        if result != "" then Except.ok (some result) else Except.ok none
      else
        Except.error "Only value inputs and dropdowns are currently supported."

/-- The forEach loop of generateLuaInner_ over the parameter names,
accumulating the inputsCode array. -/
def collectParamsCode (env : GenEnv) :
    List String → Except String (List String)
  | [] => Except.ok []
  | n :: rest =>
    match genParamCode env n with
    | Except.error e => Except.error e
    | Except.ok o =>
      match collectParamsCode env rest with
      | Except.error e => Except.error e
      | Except.ok tail =>
        Except.ok (match o with | some c => c :: tail | none => tail)

/-- Embeds Blockly.ComputerCraft.Block.prototype.generateLuaInner_. -/
def generateLuaInner (env : GenEnv) : Except String String :=
  match collectParamsCode env env.orderedParameterNames with
  | Except.error e => Except.error e
  | Except.ok inputsCode =>
    Except.ok (env.funcName ++ "(" ++ String.intercalate ", " inputsCode
      ++ ")")

/-- The value generateLua returns: the [code, ORDER_HIGH] pair for
expression blocks, or a plain statement string. -/
inductive LuaGenResult
  | pair (code : String) (prec : LuaOrder)
  | stmt (code : String)
  deriving DecidableEq

/-- Embeds Blockly.ComputerCraft.Block.prototype.generateLua; the Boolean
argument is the truthiness of this.outputConnection. -/
def generateLua (env : GenEnv) (outputConnection : Bool) :
    Except String LuaGenResult :=
  match generateLuaInner env with
  | Except.error e => Except.error e
  | Except.ok code =>
    if outputConnection
    then Except.ok (LuaGenResult.pair code LuaOrder.ORDER_HIGH)
    else Except.ok (LuaGenResult.stmt (code ++ "\n"))

/-- The dropdown field object passed to generateDropdownCode. -/
structure FieldDropdown where
  value : String

/-- Embeds the base Blockly.ComputerCraft.Block.prototype.
generateDropdownCode, which calls goog.asserts.fail unconditionally. -/
def generateDropdownCode (field : FieldDropdown) : Except String String :=
  Except.error "generateDropdownCode() must be overridden."

/-- A parameter name resolves properly when it names a value input, or
names no input but names a dropdown title. -/
def resolvesWell (env : GenEnv) (name : String) : Prop :=
  env.getInput name = some InputType.value
  ∨ (env.getInput name = none ∧ env.getTitle name = some TitleKind.dropdown)

instance (env : GenEnv) (name : String) :
    Decidable (resolvesWell env name) := by
  unfold resolvesWell; infer_instance

/-- The fragment a properly resolving parameter contributes: the
recursively generated input code, or the dropdown hook result when that
result is truthy. -/
def paramFragment (env : GenEnv) (name : String) : Option String :=
  match env.getInput name with
  | some _ => some (env.valueToCode name LuaOrder.ORDER_NONE)
  | none =>
    if env.dropdownCode name != ""
    then some (env.dropdownCode name)
    else none

theorem genParamCode_of_resolvesWell (env : GenEnv) (name : String)
    (h : resolvesWell env name) :
    genParamCode env name = Except.ok (paramFragment env name) := by
  rcases h with h1 | ⟨h2, h3⟩
  · simp [genParamCode, paramFragment, h1]
  · by_cases hd : env.dropdownCode name = ""
    · simp [genParamCode, paramFragment, h2, h3, hd]
    · simp [genParamCode, paramFragment, h2, h3, hd]

theorem collectParamsCode_of_resolvesWell (env : GenEnv)
    (names : List String) (h : ∀ n ∈ names, resolvesWell env n) :
    collectParamsCode env names
      = Except.ok (names.filterMap (paramFragment env)) := by
  induction names with
  | nil => rfl
  | cons n rest ih =>
    have hn := h n (by simp)
    have hrest : ∀ m ∈ rest, resolvesWell env m := fun m hm =>
      h m (by simp [hm])
    simp only [collectParamsCode, genParamCode_of_resolvesWell env n hn,
      ih hrest, List.filterMap_cons]
    cases paramFragment env n <;> rfl

theorem genParamCode_ok_iff (env : GenEnv) (name : String) :
    (∃ o, genParamCode env name = Except.ok o) ↔ resolvesWell env name := by
  constructor
  · rintro ⟨o, ho⟩
    unfold resolvesWell
    cases hi : env.getInput name with
    | some t =>
      by_cases ht : t = InputType.value
      · exact Or.inl (by rw [ht])
      · simp [genParamCode, hi, ht] at ho
    | none =>
      cases htl : env.getTitle name with
      | none => simp [genParamCode, hi, htl] at ho
      | some k =>
        by_cases hk : k = TitleKind.dropdown
        · exact Or.inr ⟨rfl, by rw [hk]⟩
        · simp [genParamCode, hi, htl, hk] at ho
  · intro h
    exact ⟨paramFragment env name, genParamCode_of_resolvesWell env name h⟩

theorem collectParamsCode_ok_iff (env : GenEnv) (names : List String) :
    (∃ l, collectParamsCode env names = Except.ok l)
      ↔ ∀ n ∈ names, resolvesWell env n := by
  induction names with
  | nil => simp [collectParamsCode]
  | cons n rest ih =>
    cases hg : genParamCode env n with
    | error e =>
      have hng : ¬ resolvesWell env n := by
        intro hr
        rw [genParamCode_of_resolvesWell env n hr] at hg
        cases hg
      simp [collectParamsCode, hg, List.forall_mem_cons, hng]
    | ok o =>
      have hr : resolvesWell env n := (genParamCode_ok_iff env n).mp ⟨o, hg⟩
      cases hc : collectParamsCode env rest with
      | error e =>
        have hnall : ¬ ∀ m ∈ rest, resolvesWell env m := by
          intro hall
          rcases ih.mpr hall with ⟨l, hl⟩
          simp [hl] at hc
        simp [collectParamsCode, hg, hc, List.forall_mem_cons, hr, hnall]
      | ok tail =>
        have hall := ih.mp ⟨tail, hc⟩
        simp only [collectParamsCode, hg, hc, List.forall_mem_cons]
        refine ⟨fun _ => ⟨hr, hall⟩, fun _ => ⟨_, rfl⟩⟩

/-- C4: when every declared parameter name resolves, generateLuaInner_
emits the fragments in exactly the order given by
getOrderedParameterNames, regardless of whether each name is an input or
a title, skipping dropdowns whose hook returns a falsy fragment, and the
result is funcName followed by the comma-joined fragments between
parentheses. -/
theorem c4_generateExpression (env : GenEnv)
    (h : ∀ n ∈ env.orderedParameterNames, resolvesWell env n) :
    generateLuaInner env = Except.ok (env.funcName ++ "("
      ++ String.intercalate ", "
        (env.orderedParameterNames.filterMap (paramFragment env))
      ++ ")") := by
  unfold generateLuaInner
  rw [collectParamsCode_of_resolvesWell env env.orderedParameterNames h]

def envC4 : GenEnv :=
  { orderedParameterNames := ["DIR", "DIST", "FLAG"],
    inputs := [("DIST", InputType.value)],
    titles := [("DIR", TitleKind.dropdown), ("FLAG", TitleKind.dropdown)],
    valueToCode := fun _ _ => "10",
    dropdownCode := fun n => if n == "DIR" then "left" else "",
    funcName := "turtle.turn" }

theorem c4_generateExpression_witness :
    (∀ n ∈ envC4.orderedParameterNames, resolvesWell envC4 n)
    ∧ generateLuaInner envC4 = Except.ok (envC4.funcName ++ "("
        ++ String.intercalate ", "
          (envC4.orderedParameterNames.filterMap (paramFragment envC4))
        ++ ")")
    ∧ generateLuaInner envC4 = Except.ok "turtle.turn(left, 10)" :=
  ⟨by decide, c4_generateExpression envC4 (by decide), by decide⟩

/-- C5: generateLua returns the [code, ORDER_HIGH] pair exactly when the
block has an output connection, and the newline-terminated statement
string otherwise. -/
theorem c5_generateCode (env : GenEnv) (c : String)
    (h : generateLuaInner env = Except.ok c) :
    generateLua env true
      = Except.ok (LuaGenResult.pair c LuaOrder.ORDER_HIGH)
    ∧ generateLua env false
      = Except.ok (LuaGenResult.stmt (c ++ "\n")) := by
  unfold generateLua
  rw [h]
  exact ⟨rfl, rfl⟩

def envC5 : GenEnv :=
  { orderedParameterNames := [],
    inputs := [],
    titles := [],
    valueToCode := fun _ _ => "",
    dropdownCode := fun _ => "",
    funcName := "os.time" }

theorem c5_generateCode_witness :
    generateLuaInner envC5 = Except.ok "os.time()"
    ∧ (generateLua envC5 true
        = Except.ok (LuaGenResult.pair "os.time()" LuaOrder.ORDER_HIGH)
      ∧ generateLua envC5 false
        = Except.ok (LuaGenResult.stmt ("os.time()" ++ "\n"))) :=
  ⟨rfl, c5_generateCode envC5 "os.time()" rfl⟩

/-- C8: generateLuaInner_ fails on its assertions exactly when some
declared parameter name resolves to neither a value input nor a dropdown
title (including a named input that is not a value input and a named
title that is not a dropdown); with every name resolving, no assertion
fires. -/
theorem c8_resolutionFailures (env : GenEnv) :
    (∃ s, generateLuaInner env = Except.ok s)
      ↔ ∀ n ∈ env.orderedParameterNames, resolvesWell env n := by
  rw [← collectParamsCode_ok_iff env env.orderedParameterNames]
  unfold generateLuaInner
  constructor
  · rintro ⟨s, hs⟩
    cases hc : collectParamsCode env env.orderedParameterNames with
    | error e => simp [hc] at hs
    | ok l => exact ⟨l, rfl⟩
  · rintro ⟨l, hl⟩
    rw [hl]
    exact ⟨_, rfl⟩

def envC8 : GenEnv :=
  { orderedParameterNames := ["TEXT"],
    inputs := [("TEXT", InputType.value)],
    titles := [],
    valueToCode := fun _ _ => "msg",
    dropdownCode := fun _ => "",
    funcName := "print" }

theorem c8_resolutionFailures_witness :
    ∃ s, generateLuaInner envC8 = Except.ok s :=
  (c8_resolutionFailures envC8).mpr (by decide)

/-- C9: the base generateDropdownCode always fails with the
goog.asserts.fail message, for every dropdown field, and never returns a
code fragment. -/
theorem c9_generateDropdownCode (field : FieldDropdown) :
    generateDropdownCode field
      = Except.error "generateDropdownCode() must be overridden."
    ∧ ∀ s, generateDropdownCode field ≠ Except.ok s := by
  refine ⟨rfl, ?_⟩
  intro s h
  cases h

theorem c9_generateDropdownCode_witness :
    generateDropdownCode { value := "left" }
      = Except.error "generateDropdownCode() must be overridden."
    ∧ ∀ s, generateDropdownCode { value := "left" } ≠ Except.ok s :=
  c9_generateDropdownCode { value := "left" }
